import Mathlib

/-!
Shallow embedding of the ovii wallet transfer engine:
`src/ovii_backend/wallets/services.py` (`create_transaction`,
`get_transaction_charge`) and `src/ovii_backend/wallets/models.py`
(`TransactionCharge.calculate_charge`, `Transaction.save` reference
generation, the wallet / system-wallet / transaction tables).

Money values are exact decimals; they are embedded as rationals (`ℚ`),
over which every operation the engine performs (addition, subtraction,
division by 100, `min`, `max`, comparisons) is exact, as it is for
Python `Decimal` at the magnitudes involved.
-/

namespace Ovii

/-- Embedding of `Transaction.TransactionType` (wallets/models.py). -/
inductive TxType
| TRANSFER
| DEPOSIT
| WITHDRAWAL
| PAYMENT
| COMMISSION
deriving DecidableEq, Repr

/-- Embedding of `Transaction.Status` (wallets/models.py). -/
inductive TxStatus
| PENDING
| COMPLETED
| FAILED
deriving DecidableEq, Repr

/-- Embedding of `TransactionCharge.ChargeType` (wallets/models.py). -/
inductive ChargeKind
| PERCENTAGE
| FIXED
deriving DecidableEq, Repr

/-- Embedding of `TransactionCharge.AppliesTo` (wallets/models.py). -/
inductive AppliesTo
| SENDER
| RECEIVER
deriving DecidableEq, Repr

/-- The `TextChoices` string value of a transaction type. -/
def txTypeStr : TxType → String
| TxType.TRANSFER => "TRANSFER"
| TxType.DEPOSIT => "DEPOSIT"
| TxType.WITHDRAWAL => "WITHDRAWAL"
| TxType.PAYMENT => "PAYMENT"
| TxType.COMMISSION => "COMMISSION"

/-- A row of the `TransactionCharge` table (wallets/models.py).
`name` is a unique key; `max_charge` is nullable. -/
structure TransactionCharge where
  name : String
  charge_type : ChargeKind
  value : ℚ
  applies_to : AppliesTo
  min_charge : ℚ
  max_charge : Option ℚ
  is_active : Bool
deriving DecidableEq, Repr

/-- Embedding of `TransactionCharge.calculate_charge` (wallets/models.py lines 64-76):
percentage rules give `value / 100 * amount`, fixed rules give `value`;
then `charge = min(charge, max_charge)` when `max_charge` is set, and the
result is `max(charge, min_charge)`. -/
def TransactionCharge.calculate_charge (c : TransactionCharge) (amount : ℚ) : ℚ :=
  let charge : ℚ :=
    if c.charge_type = ChargeKind.PERCENTAGE then c.value / 100 * amount else c.value
  let charge : ℚ :=
    match c.max_charge with
    | some m => min charge m
    | none => charge
  max charge c.min_charge

/-- The fields of `OviiUser` (users/models.py) read by the engine:
the denormalized identifier, the KYC tier and the role used as the
charge-rule key. -/
structure OviiUser where
  phone_number : String
  verification_level : Int
  role : String
deriving DecidableEq, Repr

/-- A row of the `Wallet` table (wallets/models.py). `balance` here is the
possibly stale in-memory copy held by the caller; the engine re-reads the
authoritative balance from the store under lock. -/
structure Wallet where
  id : Nat
  user : OviiUser
  balance : ℚ
  currency : String
deriving DecidableEq, Repr

/-- A row of the `Transaction` table (wallets/models.py). The charge-rule
foreign key is embedded by rule name (`name` is unique). -/
structure Transaction where
  wallet_id : Nat
  related_wallet_id : Option Nat
  amount : ℚ
  charge_rule : Option String
  charge_amount : ℚ
  status : TxStatus
  transaction_type : TxType
  timestamp : Int
  transaction_reference : String
  sender_identifier : String
  receiver_identifier : Option String
  description : String
deriving DecidableEq, Repr

/-- The mutable store: wallet balances keyed by wallet id, the
`SystemWallet` table as an association list of (name, balance) rows, and
the `Transaction` table. -/
structure LedgerState where
  balance : Nat → ℚ
  systemWallets : List (String × ℚ)
  transactions : List Transaction

/-- Embedding of the `Transaction._generate_transaction_reference` tag table
(wallets/models.py lines 205-230): TR / CO / MP / DP / CM keyed by
transaction type; every type is mapped, so the `.get(..., "TR")` default
is never reached. -/
def typeTag : TxType → String
| TxType.TRANSFER => "TR"
| TxType.WITHDRAWAL => "CO"
| TxType.PAYMENT => "MP"
| TxType.DEPOSIT => "DP"
| TxType.COMMISSION => "CM"

/-- One candidate reference: the type tag, a hyphen, then 8 uppercase hex chars; the
random token comes from the injected uuid stream. -/
def generate_transaction_reference (t : TxType) (uuid8 : String) : String :=
  typeTag t ++ "-" ++ uuid8

/-- The collision loop inside `Transaction.save` (wallets/models.py lines
239-263): while the candidate reference already exists, regenerate; after
`max_attempts = 5` regenerations a still-colliding candidate makes the
loop log an error (the Boolean flag) and break, and the save proceeds
with that candidate. `gen k` is the k-th candidate reference; `attempts`
mirrors the Python counter, `fuel = 5 - attempts`. -/
def refLoop (existing : List String) (gen : Nat → String) :
    Nat → Nat → String → String × Bool
| 0, _, ref => (ref, decide (ref ∈ existing))
| fuel + 1, attempts, ref =>
    if ref ∈ existing then refLoop existing gen fuel (attempts + 1) (gen (attempts + 1))
    else (ref, false)

/-- The reference actually stored by `Transaction.save`, with the
error-logged flag: the first candidate is `gen 0`, each retry takes the
next candidate. -/
def chooseReference (existing : List String) (gen : Nat → String) : String × Bool :=
  refLoop existing gen 5 0 (gen 0)

/-- Python `str.lower()` on the ASCII strings used as charge-rule keys,
written over the character list so it evaluates by reduction. -/
def strLower (s : String) : String := String.mk (s.data.map Char.toLower)

/-- Embedding of `get_transaction_charge` (wallets/services.py lines 29-42): look up
the active rule whose name is the lowered transaction type, an underscore,
then the lowered user role;
`none` when no such active rule exists (`DoesNotExist`). `name` is unique
in the table, so first-match lookup coincides with `.objects.get`. -/
def get_transaction_charge (rules : List TransactionCharge)
    (transaction_type : TxType) (user_role : String) : Option TransactionCharge :=
  let charge_name := strLower (txTypeStr transaction_type) ++ "_" ++ strLower user_role
  rules.find? (fun r => decide (r.name = charge_name) && r.is_active)

/-- The `charge_amount` expression in `create_transaction`:
`charge.calculate_charge(amount) if charge else Decimal("0.00")`. -/
def chargeOptionAmount : Option TransactionCharge → ℚ → ℚ
| some c, a => c.calculate_charge a
| none, _ => 0

/-- Resolved charge amount for a rule table, type, payer role and amount. -/
def chargeAmountOf (rules : List TransactionCharge) (t : TxType)
    (role : String) (a : ℚ) : ℚ :=
  chargeOptionAmount (get_transaction_charge rules t role) a

/-- The branch guard `charge and charge.applies_to == AppliesTo.SENDER`. -/
def appliesToSender : Option TransactionCharge → Bool
| some c => decide (c.applies_to = AppliesTo.SENDER)
| none => false

/-- Embedding of the fee-sink get_or_create on the SystemWallet table
for the row named Fee Wallet: add the row
with balance 0 when it is absent. -/
def getOrCreateFeeWallet (tbl : List (String × ℚ)) : List (String × ℚ) :=
  if (tbl.find? (fun p => decide (p.1 = "Fee Wallet"))).isSome then tbl
  else tbl ++ [("Fee Wallet", 0)]

/-- Embedding of the fee-wallet credit and save step: credit
the (unique) fee row. -/
def creditFeeWallet : List (String × ℚ) → ℚ → List (String × ℚ)
| [], _ => []
| p :: rest, c =>
    if p.1 = "Fee Wallet" then (p.1, p.2 + c) :: rest else p :: creditFeeWallet rest c

/-- Balance of the fee-sink row (0 when the row does not exist yet). -/
def feeBalTbl (tbl : List (String × ℚ)) : ℚ :=
  match tbl.find? (fun p => decide (p.1 = "Fee Wallet")) with
  | some p => p.2
  | none => 0

/-- Fee-sink balance of a store. -/
def feeBalance (s : LedgerState) : ℚ := feeBalTbl s.systemWallets

/-- Embedding of the limits lookup with default 0.00 applied to
`settings.TRANSACTION_LIMITS` by verification level.
The limits table lives in the settings module (injected configuration). -/
def dailyLimitOf (limits : Int → Option ℚ) (u : OviiUser) : ℚ :=
  (limits u.verification_level).getD 0

/-- The trailing-24h completed-send aggregate in `create_transaction`
(wallets/services.py lines 89-96): sum of `amount` over the sender
wallet transactions (as primary wallet, related name `transactions`)
with `timestamp >= now - 1 day` and status COMPLETED. Time is in
seconds, one day = 86400. The `or Decimal("0.00")` fallback for an empty
aggregate is the empty sum. -/
def amountSentToday (s : LedgerState) (wallet_id : Nat) (now : Int) : ℚ :=
  ((s.transactions.filter (fun t =>
      decide (t.wallet_id = wallet_id) &&
      decide (now - 86400 ≤ t.timestamp) &&
      decide (t.status = TxStatus.COMPLETED))).map Transaction.amount).sum

/-- The error exits of `create_transaction`: the two `TransactionError`
raises, distinguished by their message, and
`TransactionLimitExceededError` carrying the limit it reports. -/
inductive TransferError
| sameWallet
| limitExceeded (limit : ℚ)
| insufficientFunds
deriving DecidableEq, Repr

/-- One call of `create_transaction`: the returned transaction or raised
error; the post-call store (`transaction.atomic()` rollback semantics:
any raise inside the block restores the pre-call store); the wallet ids
in `select_for_update` acquisition order; and the payloads of the
`transaction_completed` signal sent after the block. -/
structure TransferResult where
  outcome : Except TransferError Transaction
  post : LedgerState
  locks : List Nat
  events : List Transaction

/-- The committed tail of `create_transaction` (wallets/services.py lines
126-149): credit the fee wallet when `charge_amount > 0`, write both
wallet balances, create the COMPLETED `Transaction` row (reference chosen
by `Transaction.save` against the current table, identifiers denormalized
from the owning users), and send `transaction_completed` after the atomic
block. -/
def commitTransfer (s : LedgerState) (systemWallets1 : List (String × ℚ))
    (uuidStream : Nat → String) (now : Int)
    (sender_wallet receiver_wallet : Wallet) (amount charge_amount : ℚ)
    (charge : Option TransactionCharge) (transaction_type : TxType)
    (description : String) (newSenderBal newReceiverBal : ℚ) : TransferResult :=
  let systemWallets2 :=
    if 0 < charge_amount then creditFeeWallet systemWallets1 charge_amount
    else systemWallets1
  let reference :=
    (chooseReference (s.transactions.map Transaction.transaction_reference)
      (fun k => generate_transaction_reference transaction_type (uuidStream k))).1
  let new_tx : Transaction :=
    { wallet_id := sender_wallet.id
      related_wallet_id := some receiver_wallet.id
      amount := amount
      charge_rule := charge.map TransactionCharge.name
      charge_amount := charge_amount
      status := TxStatus.COMPLETED
      transaction_type := transaction_type
      timestamp := now
      transaction_reference := reference
      sender_identifier := sender_wallet.user.phone_number
      receiver_identifier := some receiver_wallet.user.phone_number
      description := description }
  { outcome := Except.ok new_tx
    post :=
      { balance := fun i =>
          if i = receiver_wallet.id then newReceiverBal
          else if i = sender_wallet.id then newSenderBal
          else s.balance i
        systemWallets := systemWallets2
        transactions := s.transactions ++ [new_tx] }
    locks := [sender_wallet.id, receiver_wallet.id]
    events := [new_tx] }

/-- Embedding of `create_transaction` (wallets/services.py lines 47-149), sequential
shallow embedding. Configuration (tier limits, charge rules), the clock
and the uuid stream are parameters; `s` is the pre-call store. Control
flow follows the source exactly: same-wallet guard; inside the atomic
block the fee-wallet get_or_create, the daily-limit check (before any
row lock), charge resolution, the two `select_for_update` row locks
(sender first, then receiver), the branch on who pays the charge with
its funds check, the balance writes and the transaction creation; the
completion signal fires only after the block commits. -/
def create_transaction (limits : Int → Option ℚ) (rules : List TransactionCharge)
    (now : Int) (uuidStream : Nat → String) (s : LedgerState)
    (sender_wallet receiver_wallet : Wallet) (amount : ℚ)
    (transaction_type : TxType) (description : String) : TransferResult :=
  if sender_wallet.id = receiver_wallet.id then
    { outcome := Except.error TransferError.sameWallet
      post := s, locks := [], events := [] }
  else
    let systemWallets1 := getOrCreateFeeWallet s.systemWallets
    let daily_limit := dailyLimitOf limits sender_wallet.user
    let amount_sent_today := amountSentToday s sender_wallet.id now
    if daily_limit < amount_sent_today + amount then
      { outcome := Except.error (TransferError.limitExceeded daily_limit)
        post := s, locks := [], events := [] }
    else
      let charge := get_transaction_charge rules transaction_type sender_wallet.user.role
      let charge_amount := chargeOptionAmount charge amount
      let sender_balance := s.balance sender_wallet.id
      let receiver_balance := s.balance receiver_wallet.id
      if appliesToSender charge then
        if sender_balance < amount + charge_amount then
          { outcome := Except.error TransferError.insufficientFunds
            post := s, locks := [sender_wallet.id, receiver_wallet.id], events := [] }
        else
          commitTransfer s systemWallets1 uuidStream now sender_wallet receiver_wallet
            amount charge_amount charge transaction_type description
            (sender_balance - (amount + charge_amount)) (receiver_balance + amount)
      else
        if sender_balance < amount then
          { outcome := Except.error TransferError.insufficientFunds
            post := s, locks := [sender_wallet.id, receiver_wallet.id], events := [] }
        else
          commitTransfer s systemWallets1 uuidStream now sender_wallet receiver_wallet
            amount charge_amount charge transaction_type description
            (sender_balance - amount) (receiver_balance + (amount - charge_amount))

/-! ### Test fixtures: concrete users, wallets, configuration and stores -/

/-- A customer-role user owning wallet 1. -/
def userA : OviiUser :=
  { phone_number := "+263700000001", verification_level := 1, role := "CUSTOMER" }

/-- A customer-role user owning wallet 2. -/
def userB : OviiUser :=
  { phone_number := "+263700000002", verification_level := 1, role := "CUSTOMER" }

/-- Wallet id 1, owned by `userA`. -/
def walletA : Wallet := { id := 1, user := userA, balance := 100, currency := "USD" }

/-- Wallet id 2, owned by `userB`. -/
def walletB : Wallet := { id := 2, user := userB, balance := 0, currency := "USD" }

/-- A limits table granting every tier a 500.00 daily limit. -/
def limits500 : Int → Option ℚ := fun _ => some 500

/-- A constant uuid stream. -/
def uuidsA : Nat → String := fun _ => "A1B2C3D4"

/-- Store with wallet 1 holding 100.00 and every other balance 0. -/
def stateA : LedgerState :=
  { balance := fun i => if i = 1 then 100 else 0
    systemWallets := [], transactions := [] }

/-- Store with wallet 1 holding 100.00 and wallet 2 holding 50.00. -/
def stateAB : LedgerState :=
  { balance := fun i => if i = 1 then 100 else if i = 2 then 50 else 0
    systemWallets := [], transactions := [] }

/-- Active rule: fixed 5.00 charge paid by the sender on customer transfers. -/
def sendRule5 : TransactionCharge :=
  { name := "transfer_customer", charge_type := ChargeKind.FIXED, value := 5,
    applies_to := AppliesTo.SENDER, min_charge := 0, max_charge := none, is_active := true }

/-- Active rule: fixed 15.00 charge paid by the receiver on customer transfers. -/
def recvRule15 : TransactionCharge :=
  { name := "transfer_customer", charge_type := ChargeKind.FIXED, value := 15,
    applies_to := AppliesTo.RECEIVER, min_charge := 0, max_charge := none, is_active := true }

/-- Active rule with a negative fixed value and negative minimum charge,
paid by the sender: representable in the `TransactionCharge` schema,
which nowhere constrains `value` or `min_charge` to be nonnegative. -/
def negRule : TransactionCharge :=
  { name := "transfer_customer", charge_type := ChargeKind.FIXED, value := -5,
    applies_to := AppliesTo.SENDER, min_charge := -5, max_charge := none, is_active := true }

/-! ### Spec-side definitions (for refinement claims) -/

/-- Clamp of `x` to `[lo, hi]` (no upper bound when `hi` is absent), as
the specification words it: "Always clamp to [minCharge, maxCharge or
+inf)". This is the standard clamp `max lo (min x hi)`. -/
def clampTo (lo : ℚ) (hi : Option ℚ) (x : ℚ) : ℚ :=
  match hi with
  | some h => max lo (min x h)
  | none => max lo x

/-- The raw (pre-clamp) charge as the specification words it:
`value/100 * amount` for percentage rules, `value` for fixed rules. -/
def rawCharge (r : TransactionCharge) (amount : ℚ) : ℚ :=
  if r.charge_type = ChargeKind.PERCENTAGE then r.value / 100 * amount else r.value

/-! ### Helper lemmas about the fee-wallet table -/

/-- The fee-row predicate used by lookups. -/
def isFeeRow (p : String × ℚ) : Bool := decide (p.1 = "Fee Wallet")

lemma find?_isFeeRow_append (t1 t2 : List (String × ℚ)) :
    (t1 ++ t2).find? isFeeRow = ((t1.find? isFeeRow).or (t2.find? isFeeRow)) := by
  induction t1 with
  | nil => rfl
  | cons p rest ih =>
      by_cases hp : isFeeRow p
      · simp [List.find?, hp]
      · simp [List.find?, hp, ih]

lemma feeBalTbl_getOrCreate (tbl : List (String × ℚ)) :
    feeBalTbl (getOrCreateFeeWallet tbl) = feeBalTbl tbl := by
  unfold getOrCreateFeeWallet feeBalTbl
  split_ifs with h
  · rfl
  · rw [Option.not_isSome_iff_eq_none] at h
    have h' : tbl.find? isFeeRow = none := h
    rw [show (fun p : String × ℚ => decide (p.1 = "Fee Wallet")) = isFeeRow from rfl,
      find?_isFeeRow_append, h']
    rfl

lemma getOrCreate_hasFee (tbl : List (String × ℚ)) :
    ((getOrCreateFeeWallet tbl).find? isFeeRow).isSome = true := by
  unfold getOrCreateFeeWallet
  split_ifs with h
  · exact h
  · rw [Option.not_isSome_iff_eq_none] at h
    have h' : tbl.find? isFeeRow = none := h
    rw [find?_isFeeRow_append, h']
    rfl

lemma feeBalTbl_credit (tbl : List (String × ℚ)) (c : ℚ)
    (h : (tbl.find? isFeeRow).isSome = true) :
    feeBalTbl (creditFeeWallet tbl c) = feeBalTbl tbl + c := by
  induction tbl with
  | nil => simp [List.find?] at h
  | cons p rest ih =>
      by_cases hp : p.1 = "Fee Wallet"
      · unfold creditFeeWallet feeBalTbl
        simp [List.find?, isFeeRow, hp]
      · unfold creditFeeWallet feeBalTbl
        simp only [List.find?, isFeeRow, hp, decide_eq_true_eq, if_neg hp]
        have h' : (rest.find? isFeeRow).isSome = true := by
          simpa [List.find?, isFeeRow, hp] using h
        have := ih h'
        unfold feeBalTbl at this
        simpa [List.find?, isFeeRow, hp] using this

/-- The transaction row created by the committed 10.00 transfer from
wallet 1 to wallet 2 under `sendRule5`. -/
def txC1 : Transaction :=
  { wallet_id := 1, related_wallet_id := some 2, amount := 10,
    charge_rule := some "transfer_customer", charge_amount := 5,
    status := TxStatus.COMPLETED, transaction_type := TxType.TRANSFER,
    timestamp := 0, transaction_reference := "TR-A1B2C3D4",
    sender_identifier := "+263700000001",
    receiver_identifier := some "+263700000002", description := "" }

lemma feeBalTbl_commit (tbl : List (String × ℚ)) (c : ℚ) (hc : 0 ≤ c) :
    feeBalTbl (if 0 < c then creditFeeWallet (getOrCreateFeeWallet tbl) c
      else getOrCreateFeeWallet tbl) = feeBalTbl tbl + c := by
  split_ifs with h
  · rw [feeBalTbl_credit _ _ (getOrCreate_hasFee tbl), feeBalTbl_getOrCreate]
  · rw [feeBalTbl_getOrCreate, le_antisymm (not_lt.mp h) hc, add_zero]

lemma refLoop_zero (ex : List String) (gen : Nat → String) (a : Nat) (r : String) :
    refLoop ex gen 0 a r = (r, decide (r ∈ ex)) := rfl

lemma refLoop_succ (ex : List String) (gen : Nat → String) (f a : Nat) (r : String) :
    refLoop ex gen (f + 1) a r =
      if r ∈ ex then refLoop ex gen f (a + 1) (gen (a + 1)) else (r, false) := rfl

/-! ### Claim theorems -/

/-- C7: for every active charge rule and amount, the computed charge
equals `value/100 * amount` for PERCENTAGE rules and `value` for FIXED
rules, clamped to `[min_charge, max_charge]` (no upper clamp when
`max_charge` is unset); and when no active rule matches the
(transaction type, payer role) key, the charge amount is 0 and this is
not an error (the resolver simply returns `none`). -/
theorem C7_charge_formula :
    (∀ (r : TransactionCharge) (a : ℚ),
      r.calculate_charge a = clampTo r.min_charge r.max_charge (rawCharge r a)) ∧
    (∀ (rules : List TransactionCharge) (t : TxType) (role : String) (a : ℚ),
      get_transaction_charge rules t role = none → chargeAmountOf rules t role a = 0) := by
  constructor
  · intro r a
    unfold TransactionCharge.calculate_charge clampTo rawCharge
    cases r.max_charge with
    | none => exact max_comm _ _
    | some m => exact max_comm _ _
  · intro rules t role a h
    unfold chargeAmountOf
    rw [h]
    rfl

/-- C7 witness: with an empty rule table the lookup misses and the
resolved charge is 0; and on the concrete fixed rule `sendRule5` the
charge equals the spec-side clamp. -/
theorem C7_witness :
    (get_transaction_charge [] TxType.TRANSFER "CUSTOMER" = none ∧
      chargeAmountOf [] TxType.TRANSFER "CUSTOMER" 40 = 0) ∧
    sendRule5.calculate_charge 40 =
      clampTo sendRule5.min_charge sendRule5.max_charge (rawCharge sendRule5 40) :=
  ⟨⟨rfl, C7_charge_formula.2 [] TxType.TRANSFER "CUSTOMER" 40 rfl⟩,
    C7_charge_formula.1 sendRule5 40⟩

/-- C10: `calculate_charge` always returns at least `min_charge` — even
when `min_charge` exceeds `max_charge` — because the upper clamp (`min`
with `max_charge`) is applied before the lower clamp (`max` with
`min_charge`); whenever `max_charge` is set below `min_charge` the
result strictly exceeds `max_charge`. -/
theorem C10_min_clamp_applied_last :
    (∀ (r : TransactionCharge) (a : ℚ), r.min_charge ≤ r.calculate_charge a) ∧
    (∀ (r : TransactionCharge) (a m : ℚ),
      r.max_charge = some m → m < r.min_charge → m < r.calculate_charge a) := by
  constructor
  · intro r a
    unfold TransactionCharge.calculate_charge
    exact le_max_right _ _
  · intro r a m hm hlt
    unfold TransactionCharge.calculate_charge
    rw [hm]
    exact lt_of_lt_of_le hlt (le_max_right _ _)

/-- C10 witness: a rule with `min_charge = 10` above `max_charge = 3`
yields a charge of at least 10, strictly above the maximum clamp. -/
theorem C10_witness :
    (10 : ℚ) ≤ TransactionCharge.calculate_charge
      { name := "transfer_customer", charge_type := ChargeKind.FIXED, value := 7,
        applies_to := AppliesTo.SENDER, min_charge := 10, max_charge := some 3,
        is_active := true } 40 ∧
    (3 : ℚ) < TransactionCharge.calculate_charge
      { name := "transfer_customer", charge_type := ChargeKind.FIXED, value := 7,
        applies_to := AppliesTo.SENDER, min_charge := 10, max_charge := some 3,
        is_active := true } 40 :=
  ⟨C10_min_clamp_applied_last.1 _ 40,
    C10_min_clamp_applied_last.2 _ 40 3 rfl (by norm_num)⟩

/-- C4 counterexample: a committed transfer from wallet 2 to wallet 1
acquires the row locks in order [2, 1] — the wallet with the larger
primary key is locked first, refuting the claimed ascending-id order. -/
theorem C4_counterexample :
    (create_transaction limits500 [] 0 uuidsA stateAB walletB walletA 10
        TxType.TRANSFER "").outcome.isOk = true ∧
    (create_transaction limits500 [] 0 uuidsA stateAB walletB walletA 10
        TxType.TRANSFER "").locks = [2, 1] ∧
    ¬ List.Sorted (· ≤ ·)
      (create_transaction limits500 [] 0 uuidsA stateAB walletB walletA 10
        TxType.TRANSFER "").locks := by
  norm_num [create_transaction, commitTransfer, getOrCreateFeeWallet, dailyLimitOf,
    amountSentToday, get_transaction_charge, chargeOptionAmount, appliesToSender,
    stateAB, walletA, walletB, userA, userB, limits500, Except.isOk, Except.toBool,
    List.Sorted]

/-- C4 amended: the engine does not reorder lock acquisition by primary
key; `select_for_update` is issued for the sender row first and the
receiver row second, whatever their ids — the lock trace of every call is
either empty (an error before locking) or exactly
[sender id, receiver id]. -/
theorem C4_amended (limits : Int → Option ℚ) (rules : List TransactionCharge)
    (now : Int) (uuidStream : Nat → String) (s : LedgerState)
    (sw rw : Wallet) (amount : ℚ) (ttype : TxType) (d : String) :
    (create_transaction limits rules now uuidStream s sw rw amount ttype d).locks = [] ∨
    (create_transaction limits rules now uuidStream s sw rw amount ttype d).locks
      = [sw.id, rw.id] := by
  simp only [create_transaction]
  split_ifs <;> simp [commitTransfer]

/-- C2: every error exit of `create_transaction` (same-wallet, limit
exceeded, insufficient funds) leaves the store exactly as it was: no
wallet balance changes, the fee-sink balance is unchanged, and no
`Transaction` row is created — the raise happens before or inside the
atomic block, whose rollback restores the pre-call store. -/
theorem C2_error_preserves_state (limits : Int → Option ℚ)
    (rules : List TransactionCharge) (now : Int) (uuidStream : Nat → String)
    (s : LedgerState) (sw rw : Wallet) (amount : ℚ) (ttype : TxType) (d : String)
    (e : TransferError)
    (h : (create_transaction limits rules now uuidStream s sw rw amount ttype d).outcome
      = Except.error e) :
    (create_transaction limits rules now uuidStream s sw rw amount ttype d).post = s ∧
    (create_transaction limits rules now uuidStream s sw rw amount ttype d).post.balance
      = s.balance ∧
    feeBalance (create_transaction limits rules now uuidStream s sw rw amount ttype d).post
      = feeBalance s ∧
    (create_transaction limits rules now uuidStream s sw rw amount ttype
      d).post.transactions = s.transactions := by
  have hp : (create_transaction limits rules now uuidStream s sw rw amount ttype d).post
      = s := by
    simp only [create_transaction] at h ⊢
    split_ifs at h ⊢ <;> first
      | rfl
      | simp [commitTransfer] at h
  exact ⟨hp, by rw [hp], by rw [hp], by rw [hp]⟩

/-- C2 witness: the same-wallet error on a concrete call, with the store
fully preserved. -/
theorem C2_witness :
    (create_transaction limits500 [] 0 uuidsA stateA walletA walletA 40
        TxType.TRANSFER "").outcome = Except.error TransferError.sameWallet ∧
    (create_transaction limits500 [] 0 uuidsA stateA walletA walletA 40
        TxType.TRANSFER "").post = stateA :=
  ⟨rfl, (C2_error_preserves_state limits500 [] 0 uuidsA stateA walletA walletA 40
      TxType.TRANSFER "" TransferError.sameWallet rfl).1⟩

/-- C6: for distinct wallets, the call aborts with
`TransactionLimitExceededError` (reporting the tier limit) exactly when
the trailing-24h sender sum of COMPLETED primary-wallet transaction
amounts plus the requested amount strictly exceeds the tier-based daily
limit; on that abort no wallet row lock has been acquired and the store
is fully preserved. -/
theorem C6_daily_limit_check (limits : Int → Option ℚ)
    (rules : List TransactionCharge) (now : Int) (uuidStream : Nat → String)
    (s : LedgerState) (sw rw : Wallet) (amount : ℚ) (ttype : TxType) (d : String)
    (hne : sw.id ≠ rw.id) :
    ((create_transaction limits rules now uuidStream s sw rw amount ttype d).outcome =
        Except.error (TransferError.limitExceeded (dailyLimitOf limits sw.user)) ↔
      dailyLimitOf limits sw.user < amountSentToday s sw.id now + amount) ∧
    ((create_transaction limits rules now uuidStream s sw rw amount ttype d).outcome =
        Except.error (TransferError.limitExceeded (dailyLimitOf limits sw.user)) →
      (create_transaction limits rules now uuidStream s sw rw amount ttype d).post = s ∧
      (create_transaction limits rules now uuidStream s sw rw amount ttype d).locks
        = []) := by
  simp only [create_transaction, if_neg hne]
  split_ifs with hlim
  · exact ⟨⟨fun _ => hlim, fun _ => rfl⟩, fun _ => ⟨rfl, rfl⟩⟩
  all_goals
    refine ⟨⟨fun h => ?_, fun h => absurd h hlim⟩, fun h => ?_⟩
  all_goals simp [commitTransfer] at h

/-- C6 witness: tier limit 500.00, zero prior sends; requesting 600.00
hits the limit error, leaves the store untouched and acquires no lock. -/
theorem C6_witness :
    walletA.id ≠ walletB.id ∧
    (((create_transaction limits500 [] 0 uuidsA stateA walletA walletB 600
          TxType.TRANSFER "").outcome =
        Except.error (TransferError.limitExceeded (dailyLimitOf limits500 walletA.user)) ↔
      dailyLimitOf limits500 walletA.user < amountSentToday stateA walletA.id 0 + 600) ∧
    ((create_transaction limits500 [] 0 uuidsA stateA walletA walletB 600
          TxType.TRANSFER "").outcome =
        Except.error (TransferError.limitExceeded (dailyLimitOf limits500 walletA.user)) →
      (create_transaction limits500 [] 0 uuidsA stateA walletA walletB 600
          TxType.TRANSFER "").post = stateA ∧
      (create_transaction limits500 [] 0 uuidsA stateA walletA walletB 600
          TxType.TRANSFER "").locks = [])) :=
  ⟨by decide, C6_daily_limit_check limits500 [] 0 uuidsA stateA walletA walletB 600
      TxType.TRANSFER "" (by decide)⟩

/-- C8: the `transaction_completed` signal is sent exactly once per
committed transfer — the event list of a successful call is exactly the
one created transaction, already persisted in the committed store — and
is never sent when the call raises any pre-commit error. -/
theorem C8_signal_after_commit (limits : Int → Option ℚ)
    (rules : List TransactionCharge) (now : Int) (uuidStream : Nat → String)
    (s : LedgerState) (sw rw : Wallet) (amount : ℚ) (ttype : TxType) (d : String) :
    (∀ tx, (create_transaction limits rules now uuidStream s sw rw amount ttype
          d).outcome = Except.ok tx →
      (create_transaction limits rules now uuidStream s sw rw amount ttype d).events
          = [tx] ∧
      tx ∈ (create_transaction limits rules now uuidStream s sw rw amount ttype
          d).post.transactions) ∧
    (∀ e, (create_transaction limits rules now uuidStream s sw rw amount ttype
          d).outcome = Except.error e →
      (create_transaction limits rules now uuidStream s sw rw amount ttype d).events
        = []) := by
  simp only [create_transaction]
  split_ifs <;> constructor <;> intro x h <;> simp_all [commitTransfer]

/-- C8 witness: on the concrete committed transfer of 40.00 from wallet
1 to wallet 2 the signal payload list is exactly the created (and
persisted) transaction; on a same-wallet error no signal is sent. -/
theorem C8_witness :
    ((create_transaction limits500 [] 0 uuidsA stateA walletA walletB 40
        TxType.TRANSFER "test").events =
      [{ wallet_id := 1, related_wallet_id := some 2, amount := 40,
          charge_rule := none, charge_amount := 0, status := TxStatus.COMPLETED,
          transaction_type := TxType.TRANSFER, timestamp := 0,
          transaction_reference := "TR-A1B2C3D4",
          sender_identifier := "+263700000001",
          receiver_identifier := some "+263700000002", description := "test" }] ∧
      { wallet_id := 1, related_wallet_id := some 2, amount := 40,
          charge_rule := none, charge_amount := 0, status := TxStatus.COMPLETED,
          transaction_type := TxType.TRANSFER, timestamp := 0,
          transaction_reference := "TR-A1B2C3D4",
          sender_identifier := "+263700000001",
          receiver_identifier := some "+263700000002", description := "test" } ∈
        (create_transaction limits500 [] 0 uuidsA stateA walletA walletB 40
          TxType.TRANSFER "test").post.transactions) ∧
    (create_transaction limits500 [] 0 uuidsA stateA walletA walletA 40
        TxType.TRANSFER "").events = [] :=
  ⟨(C8_signal_after_commit limits500 [] 0 uuidsA stateA walletA walletB 40
      TxType.TRANSFER "test").1 _ (by
        have href : chooseReference []
            (fun k => generate_transaction_reference TxType.TRANSFER (uuidsA k))
            = ("TR-A1B2C3D4", false) := by decide
        norm_num [create_transaction, commitTransfer, getOrCreateFeeWallet,
          dailyLimitOf, amountSentToday, get_transaction_charge, chargeOptionAmount,
          appliesToSender, stateA, walletA, walletB, userA, userB, limits500, href]),
    (C8_signal_after_commit limits500 [] 0 uuidsA stateA walletA walletA 40
      TxType.TRANSFER "").2 TransferError.sameWallet rfl⟩

/-- C1 counterexample: with the representable rule `negRule` (fixed value
-5.00, minimum charge -5.00, sender-paid, active) a transfer of 10.00
commits with resolved charge -5.00, but the fee sink is not credited by
the charge (it stays at 0 instead of moving by -5.00) and the sum of
sender, receiver and fee-sink balances grows from 100.00 to 105.00 —
refuting the unconditional fee-credit and conservation statement. -/
theorem C1_counterexample :
    (create_transaction limits500 [negRule] 0 uuidsA stateA walletA walletB 10
        TxType.TRANSFER "").outcome.isOk = true ∧
    chargeAmountOf [negRule] TxType.TRANSFER "CUSTOMER" 10 = -5 ∧
    feeBalance (create_transaction limits500 [negRule] 0 uuidsA stateA walletA walletB 10
        TxType.TRANSFER "").post ≠
      feeBalance stateA + chargeAmountOf [negRule] TxType.TRANSFER "CUSTOMER" 10 ∧
    (create_transaction limits500 [negRule] 0 uuidsA stateA walletA walletB 10
          TxType.TRANSFER "").post.balance 1 +
        (create_transaction limits500 [negRule] 0 uuidsA stateA walletA walletB 10
          TxType.TRANSFER "").post.balance 2 +
        feeBalance (create_transaction limits500 [negRule] 0 uuidsA stateA walletA
          walletB 10 TxType.TRANSFER "").post ≠
      stateA.balance 1 + stateA.balance 2 + feeBalance stateA := by
  have hlook : get_transaction_charge [negRule] TxType.TRANSFER "CUSTOMER"
      = some negRule := by decide
  have hcalc : chargeOptionAmount (some negRule) 10 = -5 := by decide
  have happ : appliesToSender (some negRule) = true := by decide
  have href : chooseReference []
      (fun k => generate_transaction_reference TxType.TRANSFER (uuidsA k))
      = ("TR-A1B2C3D4", false) := by decide
  norm_num [create_transaction, commitTransfer, getOrCreateFeeWallet, dailyLimitOf,
    amountSentToday, stateA, walletA, walletB, userA, userB, limits500,
    chargeAmountOf, hlook, hcalc, happ, href, Except.isOk, Except.toBool,
    feeBalance, feeBalTbl, List.find?, creditFeeWallet]

/-- C1 (amended): for every committed transfer whose resolved charge
amount c is nonnegative (as holds for every rule with nonnegative
minimum charge): if the active charge rule applies to the sender, the
sender is debited amount + c and the receiver credited amount;
otherwise the sender is debited amount and the receiver credited
amount - c; the fee sink gains exactly c (it is credited only when
c > 0, which for c = 0 is the same); and the sum of sender, receiver
and fee-sink balances is conserved. (Without c ≥ 0 the fee sink is not
debited and the sum is not conserved.) -/
theorem C1_amended (limits : Int → Option ℚ) (rules : List TransactionCharge)
    (now : Int) (uuidStream : Nat → String) (s : LedgerState)
    (sw rw : Wallet) (amount : ℚ) (ttype : TxType) (d : String) (tx : Transaction)
    (h : (create_transaction limits rules now uuidStream s sw rw amount ttype d).outcome
      = Except.ok tx)
    (hc : 0 ≤ chargeAmountOf rules ttype sw.user.role amount) :
    (appliesToSender (get_transaction_charge rules ttype sw.user.role) = true →
      (create_transaction limits rules now uuidStream s sw rw amount ttype
          d).post.balance sw.id
        = s.balance sw.id - (amount + chargeAmountOf rules ttype sw.user.role amount) ∧
      (create_transaction limits rules now uuidStream s sw rw amount ttype
          d).post.balance rw.id = s.balance rw.id + amount) ∧
    (appliesToSender (get_transaction_charge rules ttype sw.user.role) = false →
      (create_transaction limits rules now uuidStream s sw rw amount ttype
          d).post.balance sw.id = s.balance sw.id - amount ∧
      (create_transaction limits rules now uuidStream s sw rw amount ttype
          d).post.balance rw.id
        = s.balance rw.id + (amount - chargeAmountOf rules ttype sw.user.role amount)) ∧
    feeBalance (create_transaction limits rules now uuidStream s sw rw amount ttype
        d).post = feeBalance s + chargeAmountOf rules ttype sw.user.role amount ∧
    (create_transaction limits rules now uuidStream s sw rw amount ttype
        d).post.balance sw.id +
      (create_transaction limits rules now uuidStream s sw rw amount ttype
        d).post.balance rw.id +
      feeBalance (create_transaction limits rules now uuidStream s sw rw amount ttype
        d).post
      = s.balance sw.id + s.balance rw.id + feeBalance s := by
  have hfb := feeBalTbl_commit s.systemWallets
    (chargeOptionAmount (get_transaction_charge rules ttype sw.user.role) amount)
    (by simpa [chargeAmountOf] using hc)
  by_cases h1 : sw.id = rw.id
  · simp [create_transaction, if_pos h1] at h
  by_cases h2 : dailyLimitOf limits sw.user < amountSentToday s sw.id now + amount
  · simp [create_transaction, if_neg h1, if_pos h2] at h
  by_cases h3 : appliesToSender (get_transaction_charge rules ttype sw.user.role) = true
  · by_cases h4 : s.balance sw.id
        < amount + chargeOptionAmount (get_transaction_charge rules ttype sw.user.role) amount
    · simp [create_transaction, if_neg h1, if_neg h2, if_pos h3, if_pos h4] at h
    · have hgoal : create_transaction limits rules now uuidStream s sw rw amount ttype d
          = commitTransfer s (getOrCreateFeeWallet s.systemWallets) uuidStream now sw rw
              amount
              (chargeOptionAmount (get_transaction_charge rules ttype sw.user.role) amount)
              (get_transaction_charge rules ttype sw.user.role) ttype d
              (s.balance sw.id -
                (amount +
                  chargeOptionAmount (get_transaction_charge rules ttype sw.user.role)
                    amount))
              (s.balance rw.id + amount) := by
        simp [create_transaction, if_neg h1, if_neg h2, if_pos h3, if_neg h4]
      rw [hgoal]
      refine ⟨fun _ => ⟨?_, ?_⟩, fun hf => ?_, ?_, ?_⟩
      · simp [commitTransfer, chargeAmountOf, if_neg h1]
      · simp [commitTransfer]
      · rw [h3] at hf
        simp at hf
      · simp [commitTransfer, feeBalance, chargeAmountOf, hfb]
      · simp [commitTransfer, feeBalance, chargeAmountOf, hfb, if_neg h1]
        ring
  · have h3f : appliesToSender (get_transaction_charge rules ttype sw.user.role)
        = false := by
      simpa using h3
    by_cases h5 : s.balance sw.id < amount
    · simp [create_transaction, if_neg h1, if_neg h2, h3f, if_pos h5] at h
    · have hgoal : create_transaction limits rules now uuidStream s sw rw amount ttype d
          = commitTransfer s (getOrCreateFeeWallet s.systemWallets) uuidStream now sw rw
              amount
              (chargeOptionAmount (get_transaction_charge rules ttype sw.user.role) amount)
              (get_transaction_charge rules ttype sw.user.role) ttype d
              (s.balance sw.id - amount)
              (s.balance rw.id +
                (amount -
                  chargeOptionAmount (get_transaction_charge rules ttype sw.user.role)
                    amount)) := by
        simp [create_transaction, if_neg h1, if_neg h2, h3f, if_neg h5]
      rw [hgoal]
      refine ⟨fun hf => ?_, fun _ => ⟨?_, ?_⟩, ?_, ?_⟩
      · rw [h3f] at hf
        simp at hf
      · simp [commitTransfer, chargeAmountOf, if_neg h1]
      · simp [commitTransfer, chargeAmountOf]
      · simp [commitTransfer, feeBalance, chargeAmountOf, hfb]
      · simp [commitTransfer, feeBalance, chargeAmountOf, hfb, if_neg h1]
        ring

/-- C1 witness: the committed 10.00 transfer from wallet 1 to wallet 2
under the sender-paid fixed 5.00 rule, with all hypotheses discharged:
sender debited 15.00, receiver credited 10.00, fee sink credited 5.00,
and the three-way balance sum conserved. -/
theorem C1_witness :
    (create_transaction limits500 [sendRule5] 0 uuidsA stateA walletA walletB 10
        TxType.TRANSFER "").outcome = Except.ok txC1 ∧
    0 ≤ chargeAmountOf [sendRule5] TxType.TRANSFER walletA.user.role 10 ∧
    ((appliesToSender (get_transaction_charge [sendRule5] TxType.TRANSFER
          walletA.user.role) = true →
      (create_transaction limits500 [sendRule5] 0 uuidsA stateA walletA walletB 10
          TxType.TRANSFER "").post.balance walletA.id
        = stateA.balance walletA.id -
            (10 + chargeAmountOf [sendRule5] TxType.TRANSFER walletA.user.role 10) ∧
      (create_transaction limits500 [sendRule5] 0 uuidsA stateA walletA walletB 10
          TxType.TRANSFER "").post.balance walletB.id
        = stateA.balance walletB.id + 10) ∧
    (appliesToSender (get_transaction_charge [sendRule5] TxType.TRANSFER
          walletA.user.role) = false →
      (create_transaction limits500 [sendRule5] 0 uuidsA stateA walletA walletB 10
          TxType.TRANSFER "").post.balance walletA.id
        = stateA.balance walletA.id - 10 ∧
      (create_transaction limits500 [sendRule5] 0 uuidsA stateA walletA walletB 10
          TxType.TRANSFER "").post.balance walletB.id
        = stateA.balance walletB.id +
            (10 - chargeAmountOf [sendRule5] TxType.TRANSFER walletA.user.role 10)) ∧
    feeBalance (create_transaction limits500 [sendRule5] 0 uuidsA stateA walletA
        walletB 10 TxType.TRANSFER "").post
      = feeBalance stateA + chargeAmountOf [sendRule5] TxType.TRANSFER
          walletA.user.role 10 ∧
    (create_transaction limits500 [sendRule5] 0 uuidsA stateA walletA walletB 10
        TxType.TRANSFER "").post.balance walletA.id +
      (create_transaction limits500 [sendRule5] 0 uuidsA stateA walletA walletB 10
        TxType.TRANSFER "").post.balance walletB.id +
      feeBalance (create_transaction limits500 [sendRule5] 0 uuidsA stateA walletA
        walletB 10 TxType.TRANSFER "").post
      = stateA.balance walletA.id + stateA.balance walletB.id + feeBalance stateA) := by
  have hlook : get_transaction_charge [sendRule5] TxType.TRANSFER "CUSTOMER"
      = some sendRule5 := by decide
  have hcalc : chargeOptionAmount (some sendRule5) 10 = 5 := by decide
  have happ : appliesToSender (some sendRule5) = true := by decide
  have href : chooseReference []
      (fun k => generate_transaction_reference TxType.TRANSFER (uuidsA k))
      = ("TR-A1B2C3D4", false) := by decide
  have hname : sendRule5.name = "transfer_customer" := rfl
  have hH : (create_transaction limits500 [sendRule5] 0 uuidsA stateA walletA walletB 10
      TxType.TRANSFER "").outcome = Except.ok txC1 := by
    norm_num [create_transaction, commitTransfer, getOrCreateFeeWallet, dailyLimitOf,
      amountSentToday, stateA, walletA, walletB, userA, userB, limits500,
      chargeAmountOf, hlook, hcalc, happ, href, txC1, hname]
  have hC : (0 : ℚ) ≤ chargeAmountOf [sendRule5] TxType.TRANSFER walletA.user.role 10 := by
    norm_num [chargeAmountOf, walletA, userA, hlook, hcalc]
  exact ⟨hH, hC, C1_amended limits500 [sendRule5] 0 uuidsA stateA walletA walletB 10
    TxType.TRANSFER "" txC1 hH hC⟩

/-- C3 counterexample: with the active receiver-paid fixed 15.00 rule
`recvRule15`, a committed 10.00 transfer from wallet 1 (balance 100.00)
to wallet 2 (balance 0.00) — all balances nonnegative before the call —
leaves the receiver at -5.00: the funds check only covers the sender, so
a receiver-paid charge larger than the amount drives the receiver
negative. -/
theorem C3_counterexample :
    0 ≤ stateA.balance 1 ∧ 0 ≤ stateA.balance 2 ∧ 0 ≤ feeBalance stateA ∧
    (create_transaction limits500 [recvRule15] 0 uuidsA stateA walletA walletB 10
        TxType.TRANSFER "").outcome.isOk = true ∧
    (create_transaction limits500 [recvRule15] 0 uuidsA stateA walletA walletB 10
        TxType.TRANSFER "").post.balance 2 < 0 := by
  have hlook : get_transaction_charge [recvRule15] TxType.TRANSFER "CUSTOMER"
      = some recvRule15 := by decide
  have hcalc : chargeOptionAmount (some recvRule15) 10 = 15 := by decide
  have happ : appliesToSender (some recvRule15) = false := by decide
  have href : chooseReference []
      (fun k => generate_transaction_reference TxType.TRANSFER (uuidsA k))
      = ("TR-A1B2C3D4", false) := by decide
  norm_num [create_transaction, commitTransfer, getOrCreateFeeWallet, dailyLimitOf,
    amountSentToday, stateA, walletA, walletB, userA, userB, limits500,
    hlook, hcalc, happ, href, Except.isOk, Except.toBool, feeBalance, feeBalTbl,
    List.find?]

/-- C3 (amended): a committed transfer leaves sender, receiver and fee
sink nonnegative whenever all three were nonnegative before the call,
the amount is nonnegative, and — when the charge, if any, does not apply
to the sender — the resolved charge amount does not exceed the amount.
(Without the last proviso the receiver can be driven negative, as the
counterexample shows; the sender and fee sink are protected
unconditionally by the funds check and the positive-credit guard.) -/
theorem C3_amended (limits : Int → Option ℚ) (rules : List TransactionCharge)
    (now : Int) (uuidStream : Nat → String) (s : LedgerState)
    (sw rw : Wallet) (amount : ℚ) (ttype : TxType) (d : String) (tx : Transaction)
    (h : (create_transaction limits rules now uuidStream s sw rw amount ttype d).outcome
      = Except.ok tx)
    (hs : 0 ≤ s.balance sw.id) (hr : 0 ≤ s.balance rw.id) (hf : 0 ≤ feeBalance s)
    (ha : 0 ≤ amount)
    (hrc : appliesToSender (get_transaction_charge rules ttype sw.user.role) = false →
      chargeAmountOf rules ttype sw.user.role amount ≤ amount) :
    0 ≤ (create_transaction limits rules now uuidStream s sw rw amount ttype
        d).post.balance sw.id ∧
    0 ≤ (create_transaction limits rules now uuidStream s sw rw amount ttype
        d).post.balance rw.id ∧
    0 ≤ feeBalance (create_transaction limits rules now uuidStream s sw rw amount ttype
        d).post := by
  have hfee : 0 ≤ feeBalTbl (if 0 < chargeOptionAmount
        (get_transaction_charge rules ttype sw.user.role) amount then
      creditFeeWallet (getOrCreateFeeWallet s.systemWallets)
        (chargeOptionAmount (get_transaction_charge rules ttype sw.user.role) amount)
    else getOrCreateFeeWallet s.systemWallets) := by
    split_ifs with hcp
    · rw [feeBalTbl_credit _ _ (getOrCreate_hasFee _), feeBalTbl_getOrCreate]
      exact add_nonneg hf hcp.le
    · rw [feeBalTbl_getOrCreate]
      exact hf
  by_cases h1 : sw.id = rw.id
  · simp [create_transaction, if_pos h1] at h
  by_cases h2 : dailyLimitOf limits sw.user < amountSentToday s sw.id now + amount
  · simp [create_transaction, if_neg h1, if_pos h2] at h
  by_cases h3 : appliesToSender (get_transaction_charge rules ttype sw.user.role) = true
  · by_cases h4 : s.balance sw.id
        < amount + chargeOptionAmount (get_transaction_charge rules ttype sw.user.role) amount
    · simp [create_transaction, if_neg h1, if_neg h2, if_pos h3, if_pos h4] at h
    · have hgoal : create_transaction limits rules now uuidStream s sw rw amount ttype d
          = commitTransfer s (getOrCreateFeeWallet s.systemWallets) uuidStream now sw rw
              amount
              (chargeOptionAmount (get_transaction_charge rules ttype sw.user.role) amount)
              (get_transaction_charge rules ttype sw.user.role) ttype d
              (s.balance sw.id -
                (amount +
                  chargeOptionAmount (get_transaction_charge rules ttype sw.user.role)
                    amount))
              (s.balance rw.id + amount) := by
        simp [create_transaction, if_neg h1, if_neg h2, if_pos h3, if_neg h4]
      rw [hgoal]
      refine ⟨?_, ?_, ?_⟩
      · simp only [commitTransfer]
        simp [if_neg h1, sub_nonneg]
        exact not_lt.mp h4
      · simp only [commitTransfer]
        simp
        exact add_nonneg hr ha
      · simp only [commitTransfer, feeBalance]
        exact hfee
  · have h3f : appliesToSender (get_transaction_charge rules ttype sw.user.role)
        = false := by
      simpa using h3
    by_cases h5 : s.balance sw.id < amount
    · simp [create_transaction, if_neg h1, if_neg h2, h3f, if_pos h5] at h
    · have hgoal : create_transaction limits rules now uuidStream s sw rw amount ttype d
          = commitTransfer s (getOrCreateFeeWallet s.systemWallets) uuidStream now sw rw
              amount
              (chargeOptionAmount (get_transaction_charge rules ttype sw.user.role) amount)
              (get_transaction_charge rules ttype sw.user.role) ttype d
              (s.balance sw.id - amount)
              (s.balance rw.id +
                (amount -
                  chargeOptionAmount (get_transaction_charge rules ttype sw.user.role)
                    amount)) := by
        simp [create_transaction, if_neg h1, if_neg h2, h3f, if_neg h5]
      rw [hgoal]
      refine ⟨?_, ?_, ?_⟩
      · simp only [commitTransfer]
        simp [if_neg h1, sub_nonneg]
        exact not_lt.mp h5
      · simp only [commitTransfer]
        simp
        refine add_nonneg hr (sub_nonneg.mpr ?_)
        simpa [chargeAmountOf] using hrc h3f
      · simp only [commitTransfer, feeBalance]
        exact hfee

/-- C3 witness: the committed 10.00 transfer under the sender-paid fixed
5.00 rule satisfies every hypothesis and leaves sender, receiver and fee
sink nonnegative. -/
theorem C3_witness :
    (create_transaction limits500 [sendRule5] 0 uuidsA stateA walletA walletB 10
        TxType.TRANSFER "").outcome = Except.ok txC1 ∧
    0 ≤ stateA.balance walletA.id ∧ 0 ≤ stateA.balance walletB.id ∧
    0 ≤ feeBalance stateA ∧ 0 ≤ (10 : ℚ) ∧
    (0 ≤ (create_transaction limits500 [sendRule5] 0 uuidsA stateA walletA walletB 10
        TxType.TRANSFER "").post.balance walletA.id ∧
    0 ≤ (create_transaction limits500 [sendRule5] 0 uuidsA stateA walletA walletB 10
        TxType.TRANSFER "").post.balance walletB.id ∧
    0 ≤ feeBalance (create_transaction limits500 [sendRule5] 0 uuidsA stateA walletA
        walletB 10 TxType.TRANSFER "").post) := by
  have hlook : get_transaction_charge [sendRule5] TxType.TRANSFER "CUSTOMER"
      = some sendRule5 := by decide
  have hcalc : chargeOptionAmount (some sendRule5) 10 = 5 := by decide
  have happ : appliesToSender (some sendRule5) = true := by decide
  have href : chooseReference []
      (fun k => generate_transaction_reference TxType.TRANSFER (uuidsA k))
      = ("TR-A1B2C3D4", false) := by decide
  have hname : sendRule5.name = "transfer_customer" := rfl
  have hH : (create_transaction limits500 [sendRule5] 0 uuidsA stateA walletA walletB 10
      TxType.TRANSFER "").outcome = Except.ok txC1 := by
    norm_num [create_transaction, commitTransfer, getOrCreateFeeWallet, dailyLimitOf,
      amountSentToday, stateA, walletA, walletB, userA, userB, limits500,
      chargeAmountOf, hlook, hcalc, happ, href, txC1, hname]
  refine ⟨hH, by norm_num [stateA, walletA], by norm_num [stateA, walletB],
    by norm_num [feeBalance, feeBalTbl, stateA, List.find?], by norm_num, ?_⟩
  exact C3_amended limits500 [sendRule5] 0 uuidsA stateA walletA walletB 10
    TxType.TRANSFER "" txC1 hH
    (by norm_num [stateA, walletA]) (by norm_num [stateA, walletB])
    (by norm_num [feeBalance, feeBalTbl, stateA, List.find?]) (by norm_num)
    (fun hfalse => by
      rw [show get_transaction_charge [sendRule5] TxType.TRANSFER walletA.user.role
          = some sendRule5 from hlook] at hfalse
      rw [happ] at hfalse
      simp at hfalse)

/-- C5 counterexample: `create_transaction` accepts amount 0.00 — no
validation error is raised; the call commits and creates a transaction
row — refuting the claim that non-positive amounts are rejected with a
validation error before any locking. -/
theorem C5_counterexample :
    (create_transaction limits500 [] 0 uuidsA stateA walletA walletB 0
        TxType.TRANSFER "").outcome.isOk = true ∧
    (create_transaction limits500 [] 0 uuidsA stateA walletA walletB 0
        TxType.TRANSFER "").post.transactions.length = 1 := by
  norm_num [create_transaction, commitTransfer, getOrCreateFeeWallet, dailyLimitOf,
    amountSentToday, get_transaction_charge, chargeOptionAmount, appliesToSender,
    stateA, walletA, walletB, userA, userB, limits500, Except.isOk, Except.toBool]

/-- C5 (amended): `create_transaction` itself performs no amount
validation — positivity and two-decimal precision are enforced only by
the calling serializers. A zero or negative amount that passes the
same-wallet, limit and (trivially satisfied) funds checks is processed
and committed; a negative amount even moves funds from the receiver to
the sender. -/
theorem C5_amended (limits : Int → Option ℚ) (rules : List TransactionCharge)
    (now : Int) (uuidStream : Nat → String) (s : LedgerState)
    (sw rw : Wallet) (amount : ℚ) (ttype : TxType) (d : String)
    (hne : sw.id ≠ rw.id)
    (hrule : get_transaction_charge rules ttype sw.user.role = none)
    (hlim : amountSentToday s sw.id now + amount ≤ dailyLimitOf limits sw.user)
    (hbal : 0 ≤ s.balance sw.id) (hamt : amount ≤ 0) :
    (create_transaction limits rules now uuidStream s sw rw amount ttype
        d).outcome.isOk = true ∧
    (create_transaction limits rules now uuidStream s sw rw amount ttype
        d).post.balance rw.id = s.balance rw.id + amount := by
  have hnl : ¬ dailyLimitOf limits sw.user < amountSentToday s sw.id now + amount :=
    not_lt.mpr hlim
  have hns : ¬ s.balance sw.id < amount := not_lt.mpr (le_trans hamt hbal)
  simp [create_transaction, if_neg hne, if_neg hnl, hrule, appliesToSender,
    if_neg hns, commitTransfer, chargeOptionAmount, Except.isOk, Except.toBool]

/-- C5 witness: a -40.00 transfer from wallet 1 to wallet 2 is accepted
by the engine and debits the receiver by 40.00. -/
theorem C5_witness :
    walletA.id ≠ walletB.id ∧
    get_transaction_charge [] TxType.TRANSFER walletA.user.role = none ∧
    amountSentToday stateA walletA.id 0 + (-40) ≤ dailyLimitOf limits500 walletA.user ∧
    0 ≤ stateA.balance walletA.id ∧ (-40 : ℚ) ≤ 0 ∧
    ((create_transaction limits500 [] 0 uuidsA stateA walletA walletB (-40)
        TxType.TRANSFER "").outcome.isOk = true ∧
    (create_transaction limits500 [] 0 uuidsA stateA walletA walletB (-40)
        TxType.TRANSFER "").post.balance walletB.id
      = stateA.balance walletB.id + (-40)) :=
  ⟨by decide, rfl, by norm_num [amountSentToday, stateA, dailyLimitOf, limits500],
    by norm_num [stateA, walletA], by norm_num,
    C5_amended limits500 [] 0 uuidsA stateA walletA walletB (-40) TxType.TRANSFER ""
      (by decide) rfl
      (by norm_num [amountSentToday, stateA, dailyLimitOf, limits500])
      (by norm_num [stateA, walletA]) (by norm_num)⟩

/-- C9 counterexample: when the initial candidate and all five
regenerated candidates collide with existing references, the save logic
of `Transaction.save` does not raise any error: it returns normally with
the still-colliding last candidate (flagging only a logged error), and
the save proceeds — there is no `ReferenceGenerationError` in the code. -/
theorem C9_counterexample :
    chooseReference ["R0", "R1", "R2", "R3", "R4", "R5"]
        (fun i => ["R0", "R1", "R2", "R3", "R4", "R5"].getD i "R5")
      = ("R5", true) ∧
    "R5" ∈ ["R0", "R1", "R2", "R3", "R4", "R5"] := by decide

/-- C9 (amended): on collision the generator regenerates up to 5 times
(a fresh candidate per retry); a first candidate that does not collide
is kept unchanged; if all six candidates collide, the loop logs an
error (the Boolean flag) and breaks, and the save proceeds with the
last, still-colliding candidate — duplicate rejection is left to the
database unique constraint rather than a `ReferenceGenerationError`. -/
theorem C9_amended (existing : List String) (gen : Nat → String) :
    (gen 0 ∉ existing → chooseReference existing gen = (gen 0, false)) ∧
    ((∀ i, i ≤ 5 → gen i ∈ existing) →
      chooseReference existing gen = (gen 5, true) ∧ gen 5 ∈ existing) := by
  constructor
  · intro h
    unfold chooseReference
    rw [refLoop_succ, if_neg h]
  · intro h
    unfold chooseReference
    rw [refLoop_succ, if_pos (h 0 (by norm_num))]
    rw [refLoop_succ, if_pos (h 1 (by norm_num))]
    rw [refLoop_succ, if_pos (h 2 (by norm_num))]
    rw [refLoop_succ, if_pos (h 3 (by norm_num))]
    rw [refLoop_succ, if_pos (h 4 (by norm_num))]
    rw [refLoop_zero]
    refine ⟨?_, h 5 (le_refl 5)⟩
    rw [decide_eq_true (h 5 (le_refl 5))]

/-- C9 witness: both branches of the amended statement at concrete
inputs — a fresh reference is kept as generated, and a fully colliding
candidate stream ends on the last colliding candidate with the logged
flag set. -/
theorem C9_witness :
    ("TR-A1B2C3D4" ∉ ([] : List String) ∧
      chooseReference [] (fun _ => "TR-A1B2C3D4") = ("TR-A1B2C3D4", false)) ∧
    ((∀ i, i ≤ 5 → (["S0", "S1", "S2", "S3", "S4", "S5"].getD i "S5")
        ∈ ["S0", "S1", "S2", "S3", "S4", "S5"]) ∧
      (chooseReference ["S0", "S1", "S2", "S3", "S4", "S5"]
          (fun i => ["S0", "S1", "S2", "S3", "S4", "S5"].getD i "S5")
        = ("S5", true) ∧
      "S5" ∈ ["S0", "S1", "S2", "S3", "S4", "S5"])) :=
  ⟨⟨by decide, (C9_amended [] (fun _ => "TR-A1B2C3D4")).1 (by decide)⟩,
    ⟨by decide, (C9_amended ["S0", "S1", "S2", "S3", "S4", "S5"]
      (fun i => ["S0", "S1", "S2", "S3", "S4", "S5"].getD i "S5")).2 (by decide)⟩⟩

end Ovii
